import Mathlib

/-!
Shallow embedding of the stateless-token authentication and revocation
subsystem of `watchlist-backend` (Rust), covering:

* `src/application/security/jwt.rs` — claim structures, token types,
  `decode_token`;
* `src/application/security/roles.rs` — role parsing and admin check;
* `src/application/security/auth.rs` — `logout`, `refresh`,
  `validate_token_type`, `generate_tokens`, `validate_revoked`, `AuthError`;
* `src/application/service/token_service.rs` — the Redis-backed revocation
  store (`revoke_global`, `revoke_user_tokens`, `revoke_refresh_token`,
  `is_revoked` and its three component checks, `cleanup_expired`);
* `src/api/extractors.rs` — `decode_token_from_request_part`.

Rust `Result` values are embedded as an explicit `Outcome` type that also
has a `panicked` constructor, used exactly where the source calls
`.unwrap()` on a fallible operation.  The Redis backend is modelled as an
association list per key that the code uses, together with a `failing`
flag that makes every backend operation return an error (modelling
connection loss).  Timestamps are `Nat` seconds since epoch, matching the
source's `timestamp() as usize` casts.
-/

/-- Result of running a piece of Rust code: `ok`, an `Err` value, or a
panic (from `.unwrap()` on a failed parse). -/
inductive Outcome (ε : Type) (α : Type) where
  | ok (a : α) : Outcome ε α
  | err (e : ε) : Outcome ε α
  | panicked : Outcome ε α
deriving DecidableEq, Repr

/-- Sequencing of fallible computations; models the Rust `?` operator. -/
def Outcome.bind {ε α β : Type} : Outcome ε α → (α → Outcome ε β) → Outcome ε β
  | .ok a, f => f a
  | .err e, _ => .err e
  | .panicked, _ => .panicked

/-- Error conversion done implicitly by `?` through `From` impls. -/
def Outcome.mapErr {ε ε2 α : Type} : Outcome ε α → (ε → ε2) → Outcome ε2 α
  | .ok a, _ => .ok a
  | .err e, f => .err (f e)
  | .panicked, _ => .panicked

namespace Redis

/-- A Redis hash, as an association list keyed by field name.  The code
only ever creates duplicate-free hashes (`hset` replaces). -/
abbrev Hash : Type := List (String × String)

/-- Redis `HGET`. -/
def hget : Hash → String → Option String
  | [], _ => none
  | (k1, v1) :: t, k => if k1 = k then some v1 else hget t k

/-- Redis `HSET`: replaces the value of an existing field, else appends. -/
def hset : Hash → String → String → Hash
  | [], k, v => [(k, v)]
  | (k1, v1) :: t, k, v => if k1 = k then (k, v) :: t else (k1, v1) :: hset t k v

/-- Redis `HDEL`. -/
def hdel : Hash → String → Hash
  | [], _ => []
  | (k1, v1) :: t, k => if k1 = k then hdel t k else (k1, v1) :: hdel t k

/-- Redis `HEXISTS`. -/
def hexists (h : Hash) (k : String) : Bool :=
  (hget h k).isSome

theorem hget_hset_self (h : Hash) (k v : String) : hget (hset h k v) k = some v := by
  induction h with
  | nil => simp [hget, hset]
  | cons p t ih =>
    obtain ⟨k1, v1⟩ := p
    by_cases hk : k1 = k
    · simp [hget, hset, hk]
    · simp [hget, hset, hk, ih]

theorem hget_hset_ne (h : Hash) (k k2 v : String) (hne : k2 ≠ k) :
    hget (hset h k v) k2 = hget h k2 := by
  have hne2 : k ≠ k2 := Ne.symm hne
  induction h with
  | nil => simp [hget, hset, hne2]
  | cons p t ih =>
    obtain ⟨k1, v1⟩ := p
    by_cases hk : k1 = k
    · subst hk
      simp only [hset, if_pos rfl]
      simp [hget, hne2]
    · simp only [hset, if_neg hk]
      by_cases hk2 : k1 = k2
      · simp [hget, hk2]
      · simp [hget, hk2, ih]

theorem hdel_not_mem (h : Hash) (k : String) (hk : hget h k = none) : hdel h k = h := by
  induction h with
  | nil => rfl
  | cons p t ih =>
    obtain ⟨k1, v1⟩ := p
    by_cases hx : k1 = k
    · subst hx
      simp [hget] at hk
    · simp only [hget, if_neg hx] at hk
      simp [hdel, hx, ih hk]

theorem hdel_append (a b : Hash) (k : String) :
    hdel (a ++ b) k = hdel a k ++ hdel b k := by
  induction a with
  | nil => rfl
  | cons p t ih =>
    obtain ⟨k1, v1⟩ := p
    by_cases hx : k1 = k <;> simp [hdel, hx, ih]

theorem hget_eq_none_of_not_mem_keys (h : Hash) (k : String)
    (hk : k ∉ h.map Prod.fst) : hget h k = none := by
  induction h with
  | nil => rfl
  | cons p t ih =>
    obtain ⟨k1, v1⟩ := p
    simp only [List.map_cons, List.mem_cons] at hk
    push_neg at hk
    have h1 : k1 ≠ k := Ne.symm hk.1
    simp [hget, h1, ih hk.2]

end Redis

/-!
Decimal-representation round trip: the service writes revocation cutoff
timestamps to Redis as decimal strings (redis-rs serialises `usize` in
decimal, i.e. `Nat.repr`) and reads them back with `parse::<usize>()`
(`String.toNat?`).  The following lemmas show the round trip is the
identity, which the cutoff theorems need.
-/

theorem toDigitsCore_fuel_irrel (f1 : Nat) : ∀ (f2 n : Nat) (ds : List Char),
    n < f1 → n < f2 → Nat.toDigitsCore 10 f1 n ds = Nat.toDigitsCore 10 f2 n ds := by
  induction f1 with
  | zero => intro f2 n ds h1 _; omega
  | succ g1 ih =>
    intro f2 n ds h1 h2
    cases f2 with
    | zero => omega
    | succ g2 =>
      simp only [Nat.toDigitsCore]
      by_cases hz : n / 10 = 0
      · simp [hz]
      · simp only [if_neg hz]
        exact ih g2 (n / 10) _ (by omega) (by omega)

theorem toDigitsCore_append (f : Nat) : ∀ (n : Nat) (ds : List Char), n < f →
    Nat.toDigitsCore 10 f n ds = Nat.toDigitsCore 10 f n [] ++ ds := by
  induction f with
  | zero => intro n ds h; omega
  | succ g ih =>
    intro n ds h
    simp only [Nat.toDigitsCore]
    by_cases hz : n / 10 = 0
    · simp [hz]
    · simp only [if_neg hz]
      rw [ih (n / 10) _ (by omega), ih (n / 10) [Nat.digitChar (n % 10)] (by omega)]
      simp

theorem digitChar_sub_zero {n : Nat} (h : n < 10) :
    (Nat.digitChar n).toNat - Char.toNat '0' = n := by
  interval_cases n <;> decide

theorem digitChar_isDigit {n : Nat} (h : n < 10) :
    (Nat.digitChar n).isDigit = true := by
  interval_cases n <;> decide

theorem foldl_toDigitsCore (n : Nat) :
    List.foldl (fun a c => a * 10 + (c.toNat - Char.toNat '0')) 0
      (Nat.toDigitsCore 10 (n + 1) n []) = n := by
  rw [Nat.toDigitsCore]
  by_cases hz : n / 10 = 0
  · simp only [if_pos hz, List.foldl]
    rw [digitChar_sub_zero (Nat.mod_lt n (by omega))]
    omega
  · simp only [if_neg hz]
    rw [toDigitsCore_append n (n / 10) _ (by omega)]
    rw [toDigitsCore_fuel_irrel n (n / 10 + 1) (n / 10) [] (by omega) (by omega)]
    rw [List.foldl_append]
    have ih := foldl_toDigitsCore (n / 10)
    rw [ih]
    simp only [List.foldl]
    rw [digitChar_sub_zero (Nat.mod_lt n (by omega))]
    omega
termination_by n
decreasing_by omega

theorem toDigitsCore_all_isDigit (f : Nat) : ∀ (n : Nat) (ds : List Char),
    (∀ c ∈ ds, c.isDigit = true) →
    ∀ c ∈ Nat.toDigitsCore 10 f n ds, c.isDigit = true := by
  induction f with
  | zero => intro n ds hds c hc; exact hds c hc
  | succ g ih =>
    intro n ds hds c hc
    rw [Nat.toDigitsCore] at hc
    by_cases hz : n / 10 = 0
    · rw [if_pos hz] at hc
      rcases List.mem_cons.mp hc with h | h
      · exact h ▸ digitChar_isDigit (Nat.mod_lt n (by omega))
      · exact hds c h
    · rw [if_neg hz] at hc
      refine ih (n / 10) _ ?_ c hc
      intro c2 hc2
      rcases List.mem_cons.mp hc2 with h | h
      · exact h ▸ digitChar_isDigit (Nat.mod_lt n (by omega))
      · exact hds c2 h

theorem toDigitsCore_ne_nil (f : Nat) : ∀ (n : Nat) (ds : List Char), 0 < f →
    Nat.toDigitsCore 10 f n ds ≠ [] := by
  induction f with
  | zero => intro n ds h; omega
  | succ g ih =>
    intro n ds _
    rw [Nat.toDigitsCore]
    by_cases hz : n / 10 = 0
    · simp [hz]
    · rw [if_neg hz]
      cases g with
      | zero => rw [Nat.toDigitsCore]; simp
      | succ g2 => exact ih (n / 10) _ (by omega)

theorem repr_data (n : Nat) : (Nat.repr n).data = Nat.toDigits 10 n := rfl

theorem repr_ne_empty (n : Nat) : Nat.repr n ≠ "" := by
  intro h
  have hd : (Nat.repr n).data = [] := congrArg String.data h
  rw [repr_data, Nat.toDigits] at hd
  exact toDigitsCore_ne_nil (n + 1) n [] (by omega) hd

theorem repr_isNat (n : Nat) : (Nat.repr n).isNat = true := by
  rw [String.isNat]
  have h1 : (Nat.repr n).isEmpty = false := by
    by_cases h : (Nat.repr n).isEmpty
    · exact absurd ((String.isEmpty_iff _).mp h) (repr_ne_empty n)
    · simpa using h
  rw [h1]
  simp only [Bool.not_false, Bool.true_and]
  rw [String.all_eq]
  rw [List.all_eq_true]
  intro c hc
  rw [repr_data, Nat.toDigits] at hc
  refine toDigitsCore_all_isDigit (n + 1) n [] ?_ c hc
  intro c2 hc2
  simp at hc2

/-- Writing a `usize` timestamp as a decimal string and parsing it back
with `parse::<usize>()` recovers the timestamp. -/
theorem toNat?_repr (n : Nat) : (Nat.repr n).toNat? = some n := by
  rw [String.toNat?, if_pos (by rw [repr_isNat])]
  rw [String.foldl_eq, repr_data, Nat.toDigits]
  rw [foldl_toDigitsCore]

/-!
Data model from `src/application/security/jwt.rs` and
`src/application/config.rs`.
-/

/-- AccessClaims from `jwt.rs`.  `usize` timestamps become `Nat`; the
`u8` token-type tag becomes `Nat` (only 0/1/2 occur). -/
structure AccessClaims where
  sub : String
  jti : String
  iat : Nat
  exp : Nat
  typ : Nat
  roles : String
deriving DecidableEq, Repr

/-- RefreshClaims from `jwt.rs`: AccessClaims plus the paired access
token reference `prf` and its expiry `pex`. -/
structure RefreshClaims where
  sub : String
  jti : String
  iat : Nat
  exp : Nat
  prf : String
  pex : Nat
  typ : Nat
  roles : String
deriving DecidableEq, Repr

/-- JwtTokenType from `jwt.rs` (`repr(u8)`). -/
inductive JwtTokenType where
  | AccessToken
  | RefreshToken
  | UnknownToken
deriving DecidableEq, Repr

/-- The `as u8` cast on JwtTokenType (discriminants 0, 1, 2). -/
def JwtTokenType.asU8 : JwtTokenType → Nat
  | .AccessToken => 0
  | .RefreshToken => 1
  | .UnknownToken => 2

/-- `From<u8> for JwtTokenType` from `jwt.rs`. -/
def JwtTokenType.fromU8 (value : Nat) : JwtTokenType :=
  match value with
  | 0 => .AccessToken
  | 1 => .RefreshToken
  | _ => .UnknownToken

/-- AuthError from `auth.rs`.  The two transparent wrappers keep their
source variant names but drop the wrapped payload. -/
inductive AuthError where
  | WrongCredentials
  | MissingCredentials
  | TokenCreationError
  | InvalidToken
  | RevokedTokensInactive
  | Forbidden
  | RedisError
  | SQLxError
deriving DecidableEq, Repr

/-- The JWT-relevant part of Config from `config.rs` (the live system
also carries host/port/database settings, which this subsystem never
reads).  The expiry and leeway fields are `i64` in the source. -/
structure Config where
  jwt_secret : String
  jwt_expire_access_token_seconds : Int
  jwt_expire_refresh_token_seconds : Int
  jwt_validation_leeway_seconds : Int
  jwt_enable_revoked_tokens : Bool
deriving DecidableEq, Repr

/-- The contents of the Redis keys used by `token_service.rs`:
`jwt.revoke.global.before` (a plain string value), `jwt.revoke.user.before`
(a hash keyed by user id) and `jwt.revoked.tokens` (a hash keyed by JWT
id).  All values are strings, as stored by Redis. -/
structure RedisStore where
  globalBefore : Option String
  userBefore : Redis.Hash
  revokedTokens : Redis.Hash
deriving DecidableEq, Repr

/-- A Redis connection: the store contents plus a flag making every
backend call fail (modelling connection loss).  A `RedisError` carries
no information the embedding needs, so backend errors are `Unit`. -/
structure RedisConn where
  store : RedisStore
  failing : Bool
deriving DecidableEq, Repr

/-- SharedState from `state.rs`: configuration plus the mutex-guarded
Redis connection (the database pool is out of scope). -/
structure SharedState where
  config : Config
  redis : RedisConn
deriving DecidableEq, Repr

/-- User from `domain/models/user.rs`.  `id` is the `Uuid` rendered as a
string; `created_at`/`updated_at` timestamps are opaque here. -/
structure User where
  id : String
  username : String
  email : String
  password_hash : String
  password_salt : String
  roles : String
  created_at : Option Nat
  updated_at : Option Nat
deriving DecidableEq, Repr

/-!
Roles, from `src/application/security/roles.rs`.
-/

/-- USER_ROLE_ADMIN from `constants.rs`. -/
def USER_ROLE_ADMIN : String := "admin"

/-- contains_role_admin from `roles.rs`: split on commas, trim each
entry, exact match against the admin role name; empty string is false. -/
def contains_role_admin (roles : String) : Bool :=
  if roles.isEmpty then
    false
  else
    ((roles.splitOn ",").map (fun s => s.trim)).any (fun x => x == USER_ROLE_ADMIN)

/-- is_role_admin from `roles.rs`. -/
def is_role_admin (roles : String) : Except AuthError Unit :=
  if !contains_role_admin roles then
    .error .Forbidden
  else
    .ok ()

/-- The ClaimsMethods trait from `jwt.rs`. -/
class ClaimsMethods (α : Type) where
  validate_role_admin : α → Except AuthError Unit
  get_sub : α → String
  get_exp : α → Nat
  get_iat : α → Nat
  get_jti : α → String

instance instCMAccessClaims : ClaimsMethods AccessClaims where
  validate_role_admin c := is_role_admin c.roles
  get_sub c := c.sub
  get_exp c := c.exp
  get_iat c := c.iat
  get_jti c := c.jti

instance instCMRefreshClaims : ClaimsMethods RefreshClaims where
  validate_role_admin c := is_role_admin c.roles
  get_sub c := c.sub
  get_exp c := c.exp
  get_iat c := c.iat
  get_jti c := c.jti

/-!
Revocation store operations from
`src/application/service/token_service.rs`.  Each function takes the
current time explicitly (the source reads `chrono::Utc::now()`), and
state-changing operations return the updated store.
-/

namespace token_service

/-- revoke_global: `SET jwt.revoke.global.before <now>`.  redis-rs
serialises the `usize` timestamp as its decimal string. -/
def revoke_global (timestamp_now : Nat) (state : SharedState) :
    Outcome Unit RedisStore :=
  if state.redis.failing then .err ()
  else .ok { state.redis.store with globalBefore := some (Nat.repr timestamp_now) }

/-- revoke_user_tokens: `HSET jwt.revoke.user.before <user_id> <now>`. -/
def revoke_user_tokens (user_id : String) (timestamp_now : Nat)
    (state : SharedState) : Outcome Unit RedisStore :=
  if state.redis.failing then .err ()
  else .ok { state.redis.store with
    userBefore := Redis.hset state.redis.store.userBefore user_id (Nat.repr timestamp_now) }

/-- is_global_revoked: reads the global cutoff; a stored value that does
not parse as `usize` hits `.unwrap()` and panics; otherwise revoked iff
`global_exp >= claims.get_iat()`. -/
def is_global_revoked {α : Type} [ClaimsMethods α] (claims : α)
    (conn : RedisConn) : Outcome Unit Bool :=
  if conn.failing then .err ()
  else
    match conn.store.globalBefore with
    | none => .ok false
    | some exp =>
      match exp.toNat? with
      | none => .panicked
      | some global_exp =>
        if global_exp ≥ ClaimsMethods.get_iat claims then .ok true else .ok false

/-- is_user_revoked: reads the per-user cutoff under the claims'
subject; same parse-and-unwrap pattern as the global check. -/
def is_user_revoked {α : Type} [ClaimsMethods α] (claims : α)
    (conn : RedisConn) : Outcome Unit Bool :=
  if conn.failing then .err ()
  else
    match Redis.hget conn.store.userBefore (ClaimsMethods.get_sub claims) with
    | none => .ok false
    | some exp =>
      match exp.toNat? with
      | none => .panicked
      | some global_exp =>
        if global_exp ≥ ClaimsMethods.get_iat claims then .ok true else .ok false

/-- is_token_revoked: `HEXISTS jwt.revoked.tokens <jti>`. -/
def is_token_revoked {α : Type} [ClaimsMethods α] (claims : α)
    (conn : RedisConn) : Outcome Unit Bool :=
  if conn.failing then .err ()
  else .ok (Redis.hexists conn.store.revokedTokens (ClaimsMethods.get_jti claims))

/-- is_revoked: global, then user, then token check, short-circuiting on
the first `true`; any backend error propagates via `?`. -/
def is_revoked {α : Type} [ClaimsMethods α] (claims : α) (conn : RedisConn) :
    Outcome Unit Bool :=
  (is_global_revoked claims conn).bind fun global_revoked =>
    if global_revoked then .ok true
    else
      (is_user_revoked claims conn).bind fun user_revoked =>
        if user_revoked then .ok true
        else
          (is_token_revoked claims conn).bind fun token_revoked =>
            if token_revoked then .ok true
            else .ok false

/-- revoke_refresh_token (token_service.rs): inserts the refresh token's
`jti` and its paired access token id `prf` into the revoked-tokens hash,
both mapped to the refresh token's own expiry `claims.exp`. -/
def revoke_refresh_token (claims : RefreshClaims) (conn : RedisConn) :
    Outcome Unit RedisStore :=
  if conn.failing then .err ()
  else .ok { conn.store with
    revokedTokens :=
      Redis.hset
        (Redis.hset conn.store.revokedTokens claims.jti (Nat.repr claims.exp))
        claims.prf (Nat.repr claims.exp) }

/-- Does this denylist entry get deleted by cleanup at time `now`?  An
entry is deleted iff its value parses as `usize` and is strictly in the
past; unparsable values are logged and skipped. -/
def expiredEntry (timestamp_now : Nat) (p : String × String) : Bool :=
  match p.2.toNat? with
  | some timestamp_exp => timestamp_now > timestamp_exp
  | none => false

/-- The loop body of cleanup_expired: iterate over the `HGETALL`
snapshot, `HDEL`-ing expired entries from the live hash and counting
them. -/
def cleanupLoop (timestamp_now : Nat) :
    List (String × String) → Redis.Hash → Nat → Redis.Hash × Nat
  | [], h, deleted => (h, deleted)
  | (key, exp) :: rest, h, deleted =>
    match exp.toNat? with
    | some timestamp_exp =>
      if timestamp_now > timestamp_exp then
        cleanupLoop timestamp_now rest (Redis.hdel h key) (deleted + 1)
      else
        cleanupLoop timestamp_now rest h deleted
    | none => cleanupLoop timestamp_now rest h deleted

/-- cleanup_expired: `HGETALL` the revoked-tokens hash, delete every
entry whose parsed expiry is strictly before now, and return the count
deleted together with the updated store. -/
def cleanup_expired (timestamp_now : Nat) (state : SharedState) :
    Outcome Unit (Nat × RedisStore) :=
  if state.redis.failing then .err ()
  else
    let revoked_tokens := state.redis.store.revokedTokens
    let r := cleanupLoop timestamp_now revoked_tokens revoked_tokens 0
    .ok (r.2, { state.redis.store with revokedTokens := r.1 })

end token_service

/-!
Wire-format model.  A signed JWT is its JSON claim payload plus the
secret it was signed with; `jsonwebtoken::decode` succeeds only when the
verifying secret matches the signing secret.  The payload is a flat JSON
object of string and integer fields, modelled as an association list in
serialisation order.
-/

/-- A JSON field value as used by the claim structures: a string or a
nonnegative integer. -/
inductive JsonVal where
  | str (s : String)
  | num (n : Nat)
deriving DecidableEq, Repr

/-- First value bound to a string field, if it is a string. -/
def lookupStr : List (String × JsonVal) → String → Option String
  | [], _ => none
  | (k1, .str s) :: t, k => if k1 = k then some s else lookupStr t k
  | (_, .num _) :: t, k => lookupStr t k

/-- First value bound to a numeric field, if it is a number. -/
def lookupNum : List (String × JsonVal) → String → Option Nat
  | [], _ => none
  | (k1, .num n) :: t, k => if k1 = k then some n else lookupNum t k
  | (_, .str _) :: t, k => lookupNum t k

/-- Serde serialisation of AccessClaims (derive Serialize, declaration
order). -/
def AccessClaims.toJson (c : AccessClaims) : List (String × JsonVal) :=
  [("sub", .str c.sub), ("jti", .str c.jti), ("iat", .num c.iat),
   ("exp", .num c.exp), ("typ", .num c.typ), ("roles", .str c.roles)]

/-- Serde serialisation of RefreshClaims (derive Serialize, declaration
order). -/
def RefreshClaims.toJson (c : RefreshClaims) : List (String × JsonVal) :=
  [("sub", .str c.sub), ("jti", .str c.jti), ("iat", .num c.iat),
   ("exp", .num c.exp), ("prf", .str c.prf), ("pex", .num c.pex),
   ("typ", .num c.typ), ("roles", .str c.roles)]

/-- Serde deserialisation of AccessClaims (derive Deserialize): every
declared field is required, fields not named in the struct — such as a
refresh token's `prf`/`pex` — are ignored. -/
def AccessClaims.fromJson (j : List (String × JsonVal)) : Option AccessClaims :=
  match lookupStr j "sub", lookupStr j "jti", lookupNum j "iat",
        lookupNum j "exp", lookupNum j "typ", lookupStr j "roles" with
  | some sub, some jti, some iat, some exp, some typ, some roles =>
    some { sub := sub, jti := jti, iat := iat, exp := exp, typ := typ, roles := roles }
  | _, _, _, _, _, _ => none

/-- Serde deserialisation of RefreshClaims (derive Deserialize). -/
def RefreshClaims.fromJson (j : List (String × JsonVal)) : Option RefreshClaims :=
  match lookupStr j "sub", lookupStr j "jti", lookupNum j "iat",
        lookupNum j "exp", lookupStr j "prf", lookupNum j "pex",
        lookupNum j "typ", lookupStr j "roles" with
  | some sub, some jti, some iat, some exp, some prf, some pex, some typ, some roles =>
    some { sub := sub, jti := jti, iat := iat, exp := exp, prf := prf,
           pex := pex, typ := typ, roles := roles }
  | _, _, _, _, _, _, _, _ => none

/-- A signed wire token: payload plus signing secret.  Signature
verification succeeds iff the verifying secret equals the signing
secret (HS256 is deterministic symmetric signing). -/
structure WireToken where
  payload : List (String × JsonVal)
  secret : String
deriving DecidableEq, Repr

/-- JwtTokens from `auth.rs`: the pair of encoded tokens returned by
generate_tokens. -/
structure JwtTokens where
  access_token : WireToken
  refresh_token : WireToken
deriving DecidableEq, Repr

/-- decode_token from `jwt.rs`, generic over the claim type via its
deserialiser.  `jsonwebtoken::decode` with `Validation::default()`
verifies the signature, requires and validates `exp` against now minus
leeway (`validation.leeway` is set from configuration; the source's
`as u64` cast of the `i64` is modelled as `Int.toNat`, faithful for the
nonnegative values configuration loading produces), then deserialises
the claim struct.  Every failure is mapped to
`AuthError::WrongCredentials` by the `map_err` in the source. -/
def decode_token {α : Type} (fromJson : List (String × JsonVal) → Option α)
    (token : WireToken) (config : Config) (timestamp_now : Nat) :
    Outcome AuthError α :=
  if token.secret ≠ config.jwt_secret then .err .WrongCredentials
  else
    match lookupNum token.payload "exp" with
    | none => .err .WrongCredentials
    | some exp =>
      if timestamp_now > exp + config.jwt_validation_leeway_seconds.toNat then
        .err .WrongCredentials
      else
        match fromJson token.payload with
        | none => .err .WrongCredentials
        | some claims => .ok claims

/-- Is the character an ASCII hex digit? -/
def isHexDigitChar (c : Char) : Bool :=
  c.isDigit || ('a' ≤ c && c ≤ 'f') || ('A' ≤ c && c ≤ 'F')

/-- Split a character list on the hyphen character. -/
def splitOnDash : List Char → List (List Char)
  | [] => [[]]
  | c :: t =>
    let r := splitOnDash t
    if c = '-' then [] :: r
    else
      match r with
      | [] => [[c]]
      | h :: t2 => (c :: h) :: t2

/-- Helper for `parse_uuid`: the hyphenated 8-4-4-4-12 form. -/
def parse_uuid_hyphenated (cs : List Char) : Option String :=
  let parts := splitOnDash cs
  if parts.map List.length = [8, 4, 4, 4, 12]
      && parts.all (fun p => p.all isHexDigitChar) then
    some (String.mk (parts.flatten.map Char.toLower))
  else none

/-- Modelled from the uuid crate used by `refresh_claims.sub.parse()`:
`Uuid::from_str` accepts the simple (32 hex digits) and hyphenated
(8-4-4-4-12) forms, and the braced and URN wrappings of the hyphenated
form.  The parsed value is represented as the lowercase simple form,
standing in for the 128-bit UUID. -/
def parse_uuid (s : String) : Option String :=
  let cs := s.data
  if cs.length = 32 && cs.all isHexDigitChar then
    some (String.mk (cs.map Char.toLower))
  else if cs.take 9 = "urn:uuid:".data then
    parse_uuid_hyphenated (cs.drop 9)
  else if cs.take 1 = ['\x7b'] && cs.getLast? = some '\x7d' then
    parse_uuid_hyphenated ((cs.drop 1).dropLast)
  else
    parse_uuid_hyphenated cs

/-!
Token lifecycle operations from `src/application/security/auth.rs`.
-/

namespace auth

/-- validate_token_type from `auth.rs`: compares the claims' `typ` tag
with the expected variant's `as u8` value (the else branch only logs). -/
def validate_token_type (claims : RefreshClaims) (expected_type : JwtTokenType) : Bool :=
  if claims.typ = expected_type.asU8 then true else false

/-- validate_revoked from `auth.rs`: a revoked token is rejected with
`WrongCredentials`; a backend error propagates via `?` through the
`From<redis::RedisError>` impl as `RedisError`. -/
def validate_revoked {α : Type} [ClaimsMethods α] (claims : α)
    (state : SharedState) : Outcome AuthError Unit :=
  ((token_service.is_revoked claims state.redis).mapErr
      (fun _ => AuthError.RedisError)).bind fun revoked =>
    if revoked then .err .WrongCredentials else .ok ()

/-- revoke_refresh_token from `auth.rs` (private): first checks the
current revocation status of the presented claims, then inserts the
refresh/access pair into the denylist. -/
def revoke_refresh_token (refresh_claims : RefreshClaims)
    (state : SharedState) : Outcome AuthError RedisStore :=
  (validate_revoked refresh_claims state).bind fun _ =>
    (token_service.revoke_refresh_token refresh_claims state.redis).mapErr
      (fun _ => AuthError.RedisError)

/-- logout from `auth.rs`: feature gate, token-type check, then revoke.
The updated store is returned in place of the source's `()`. -/
def logout (refresh_claims : RefreshClaims) (state : SharedState) :
    Outcome AuthError RedisStore :=
  if !state.config.jwt_enable_revoked_tokens then .err .RevokedTokensInactive
  else if !validate_token_type refresh_claims .RefreshToken then .err .InvalidToken
  else revoke_refresh_token refresh_claims state

/-- The claim structures built inside generate_tokens (`auth.rs`) before
encoding.  `time_now` is the sampled wall clock and the two fresh v4
UUID strings are passed in; the source's `timestamp() as usize` on
`time_now + Duration::seconds(ttl)` is modelled as `Int.toNat`, faithful
whenever the sum is nonnegative. -/
def generate_claims (user : User) (config : Config) (time_now : Nat)
    (access_token_id refresh_token_id : String) : AccessClaims × RefreshClaims :=
  let iat := time_now
  let sub := user.id
  let access_token_exp :=
    (Int.ofNat time_now + config.jwt_expire_access_token_seconds).toNat
  let access_claims : AccessClaims :=
    { sub := sub, jti := access_token_id, iat := iat, exp := access_token_exp,
      typ := JwtTokenType.AccessToken.asU8, roles := user.roles }
  let refresh_claims : RefreshClaims :=
    { sub := sub, jti := refresh_token_id, iat := iat,
      exp := (Int.ofNat time_now + config.jwt_expire_refresh_token_seconds).toNat,
      prf := access_token_id, pex := access_token_exp,
      typ := JwtTokenType.RefreshToken.asU8, roles := user.roles }
  (access_claims, refresh_claims)

/-- generate_tokens from `auth.rs`: build both claim sets and sign each
with the configured secret. -/
def generate_tokens (user : User) (config : Config) (time_now : Nat)
    (access_token_id refresh_token_id : String) : JwtTokens :=
  let c := generate_claims user config time_now access_token_id refresh_token_id
  { access_token := { payload := c.1.toJson, secret := config.jwt_secret },
    refresh_token := { payload := c.2.toJson, secret := config.jwt_secret } }

/-- refresh from `auth.rs`.  `user_repo::get_by_id` is an external
collaborator, passed in as `lookup`, keyed by the parsed UUID; the
source's `refresh_claims.sub.parse().unwrap()` is the panic site when
the subject is not a UUID. -/
def refresh (refresh_claims : RefreshClaims) (state : SharedState)
    (lookup : String → Except AuthError User) (time_now : Nat)
    (access_token_id refresh_token_id : String) :
    Outcome AuthError (JwtTokens × RedisStore) :=
  if !validate_token_type refresh_claims .RefreshToken then .err .InvalidToken
  else
    let step : Outcome AuthError RedisStore :=
      if state.config.jwt_enable_revoked_tokens then
        revoke_refresh_token refresh_claims state
      else .ok state.redis.store
    step.bind fun store2 =>
      match parse_uuid refresh_claims.sub with
      | none => .panicked
      | some user_id =>
        match lookup user_id with
        | .error e => .err e
        | .ok user =>
          .ok (generate_tokens user state.config time_now
                access_token_id refresh_token_id, store2)

end auth

/-!
The request-boundary extractor from `src/api/extractors.rs`.
-/

/-- The Authorization header of a request: absent or malformed, or a
bearer token. -/
inductive BearerHeader where
  | invalid
  | bearer (token : WireToken)
deriving DecidableEq, Repr

/-- decode_token_from_request_part from `extractors.rs`: extract the
bearer token (absence is `WrongCredentials`), decode it as the claim
type `α`, and — only if revocation tracking is enabled — check the
revocation store before admitting the claims.  There is no token-type
check here. -/
def decode_token_from_request_part {α : Type} [ClaimsMethods α]
    (fromJson : List (String × JsonVal) → Option α)
    (header : BearerHeader) (state : SharedState) (timestamp_now : Nat) :
    Outcome AuthError α :=
  match header with
  | .invalid => .err .WrongCredentials
  | .bearer tok =>
    (decode_token fromJson tok state.config timestamp_now).bind fun claims =>
      if state.config.jwt_enable_revoked_tokens then
        (auth.validate_revoked claims state).bind fun _ => .ok claims
      else .ok claims

/-!
Claim theorems.
-/

/-- The AccessClaims that the access-claims deserialiser reads off a
refresh token's payload: same `sub`, `jti`, `iat`, `exp`, `typ` and
`roles`; the refresh-only fields `prf`/`pex` are dropped. -/
def RefreshClaims.asAccess (r : RefreshClaims) : AccessClaims :=
  { sub := r.sub, jti := r.jti, iat := r.iat, exp := r.exp,
    typ := r.typ, roles := r.roles }

/-- C8: in every issuance call, the RefreshClaims' paired_access_token_id
(`prf`) equals the `jti` of the AccessClaims minted in the same call, its
paired_access_expires_at (`pex`) equals that AccessClaims' `exp`, both
claim sets share the same `iat`, and generate_tokens signs exactly these
two claim sets. -/
theorem generated_pair_linked (user : User) (config : Config) (time_now : Nat)
    (access_token_id refresh_token_id : String) :
    ((auth.generate_claims user config time_now access_token_id refresh_token_id).2).prf
      = ((auth.generate_claims user config time_now access_token_id refresh_token_id).1).jti
    ∧ ((auth.generate_claims user config time_now access_token_id refresh_token_id).2).pex
      = ((auth.generate_claims user config time_now access_token_id refresh_token_id).1).exp
    ∧ ((auth.generate_claims user config time_now access_token_id refresh_token_id).2).iat
      = ((auth.generate_claims user config time_now access_token_id refresh_token_id).1).iat
    ∧ (auth.generate_tokens user config time_now access_token_id refresh_token_id).access_token.payload
      = ((auth.generate_claims user config time_now access_token_id refresh_token_id).1).toJson
    ∧ (auth.generate_tokens user config time_now access_token_id refresh_token_id).refresh_token.payload
      = ((auth.generate_claims user config time_now access_token_id refresh_token_id).2).toJson :=
  ⟨rfl, rfl, rfl, rfl, rfl⟩

/-- C3 counterexample: a token signed with the wrong secret is rejected
with `WrongCredentials`, which is a different error value from
`InvalidToken` — so decode does not fail with `InvalidToken` as the
claim states. -/
theorem decode_token_error_counterexample :
    decode_token AccessClaims.fromJson
      { payload := [("sub", JsonVal.str "u1"), ("jti", JsonVal.str "t1"),
                    ("iat", JsonVal.num 0), ("exp", JsonVal.num 100),
                    ("typ", JsonVal.num 0), ("roles", JsonVal.str "")],
        secret := "other-secret" }
      { jwt_secret := "the-secret", jwt_expire_access_token_seconds := 600,
        jwt_expire_refresh_token_seconds := 3600,
        jwt_validation_leeway_seconds := 0, jwt_enable_revoked_tokens := true }
      50
      = .err .WrongCredentials
    ∧ AuthError.WrongCredentials ≠ AuthError.InvalidToken := by
  decide

/-- C3 (amended): decode fails with the single error value
`WrongCredentials` whenever the signature is invalid, the token is
structurally malformed (missing `exp`, or payload not deserialisable as
the claim struct), or it is expired; the failure reason is not
distinguished to the caller, and no decode failure is ever any other
error value. -/
theorem decode_token_single_error_value (tok : WireToken) (config : Config)
    (timestamp_now : Nat) :
    (tok.secret ≠ config.jwt_secret →
      decode_token AccessClaims.fromJson tok config timestamp_now = .err .WrongCredentials)
    ∧ (lookupNum tok.payload "exp" = none →
      decode_token AccessClaims.fromJson tok config timestamp_now = .err .WrongCredentials)
    ∧ (∀ e, lookupNum tok.payload "exp" = some e →
      timestamp_now > e + config.jwt_validation_leeway_seconds.toNat →
      decode_token AccessClaims.fromJson tok config timestamp_now = .err .WrongCredentials)
    ∧ (AccessClaims.fromJson tok.payload = none →
      decode_token AccessClaims.fromJson tok config timestamp_now = .err .WrongCredentials)
    ∧ (∀ er, decode_token AccessClaims.fromJson tok config timestamp_now = .err er →
      er = .WrongCredentials) := by
  refine ⟨?_, ?_, ?_, ?_, ?_⟩
  · intro hs
    simp [decode_token, hs]
  · intro he
    by_cases hs : tok.secret = config.jwt_secret
    · simp [decode_token, hs, he]
    · simp [decode_token, hs]
  · intro e he hexp
    by_cases hs : tok.secret = config.jwt_secret
    · simp [decode_token, hs, he, hexp]
    · simp [decode_token, hs]
  · intro hj
    by_cases hs : tok.secret = config.jwt_secret
    · cases he : lookupNum tok.payload "exp" with
      | none => simp [decode_token, hs, he]
      | some e =>
        by_cases hexp : timestamp_now > e + config.jwt_validation_leeway_seconds.toNat
        · simp [decode_token, hs, he, hexp]
        · simp [decode_token, hs, he, hexp, hj]
    · simp [decode_token, hs]
  · intro er her
    by_cases hs : tok.secret = config.jwt_secret
    · cases he : lookupNum tok.payload "exp" with
      | none =>
        simp [decode_token, hs, he] at her
        exact her.symm
      | some e =>
        by_cases hexp : timestamp_now > e + config.jwt_validation_leeway_seconds.toNat
        · simp [decode_token, hs, he, hexp] at her
          exact her.symm
        · cases hj : AccessClaims.fromJson tok.payload with
          | none =>
            simp [decode_token, hs, he, hexp, hj] at her
            exact her.symm
          | some c => simp [decode_token, hs, he, hexp, hj] at her
    · simp [decode_token, hs] at her
      exact her.symm

/-- C2 counterexample: with revocation enabled and a healthy backend, a
stored global-cutoff value that does not parse as a timestamp makes
is_revoked panic (the source unwraps the parse) instead of surfacing a
store error — so a revocation check can panic on a parse failure. -/
theorem is_revoked_parse_failure_panics :
    token_service.is_revoked (α := AccessClaims)
      { sub := "u1", jti := "t1", iat := 5, exp := 10, typ := 0, roles := "" }
      { store := { globalBefore := some "not-a-number", userBefore := [],
                   revokedTokens := [] },
        failing := false }
      = .panicked
    ∧ (Outcome.panicked : Outcome Unit Bool) ≠ .err () := by
  have hNat : ("not-a-number" : String).isNat = false := by
    rw [String.isNat, String.all_eq]
    decide
  have hx : ("not-a-number" : String).toNat? = none := by
    rw [String.toNat?, hNat]
    simp
  refine ⟨?_, by decide⟩
  simp [token_service.is_revoked, token_service.is_global_revoked, hx, Outcome.bind]

/-- C2 (amended): a backend failure during a revocation check is surfaced
as a store error from is_revoked and makes the request extractor reject
the request with `RedisError` (fail-closed, never admitted); however, a
parse failure of a stored cutoff timestamp panics instead of being
surfaced as a store error. -/
theorem revocation_backend_error_fail_closed (claims : AccessClaims)
    (state : SharedState) (tok : WireToken) (ac : AccessClaims)
    (timestamp_now : Nat)
    (hfail : state.redis.failing = true)
    (hen : state.config.jwt_enable_revoked_tokens = true)
    (hdec : decode_token AccessClaims.fromJson tok state.config timestamp_now = .ok ac) :
    token_service.is_revoked claims state.redis = .err ()
    ∧ decode_token_from_request_part AccessClaims.fromJson (.bearer tok)
        state timestamp_now = .err .RedisError := by
  have hrev : token_service.is_revoked (α := AccessClaims) claims state.redis = .err () := by
    simp [token_service.is_revoked, token_service.is_global_revoked, hfail, Outcome.bind]
  have hrev2 : token_service.is_revoked (α := AccessClaims) ac state.redis = .err () := by
    simp [token_service.is_revoked, token_service.is_global_revoked, hfail, Outcome.bind]
  refine ⟨hrev, ?_⟩
  simp [decode_token_from_request_part, hdec, Outcome.bind, hen,
        auth.validate_revoked, hrev2, Outcome.mapErr]

/-- C2 witness. -/
theorem revocation_backend_error_fail_closed_witness :
    token_service.is_revoked (α := AccessClaims)
      { sub := "u1", jti := "t1", iat := 5, exp := 10, typ := 0, roles := "" }
      { store := { globalBefore := none, userBefore := [], revokedTokens := [] },
        failing := true }
      = .err ()
    ∧ decode_token_from_request_part AccessClaims.fromJson
        (.bearer { payload := [("sub", JsonVal.str "u1"), ("jti", JsonVal.str "t1"),
                               ("iat", JsonVal.num 5), ("exp", JsonVal.num 10),
                               ("typ", JsonVal.num 0), ("roles", JsonVal.str "")],
                   secret := "s" })
        { config := { jwt_secret := "s", jwt_expire_access_token_seconds := 600,
                      jwt_expire_refresh_token_seconds := 3600,
                      jwt_validation_leeway_seconds := 0,
                      jwt_enable_revoked_tokens := true },
          redis := { store := { globalBefore := none, userBefore := [],
                                revokedTokens := [] },
                     failing := true } }
        7
      = .err .RedisError :=
  revocation_backend_error_fail_closed
    { sub := "u1", jti := "t1", iat := 5, exp := 10, typ := 0, roles := "" }
    { config := { jwt_secret := "s", jwt_expire_access_token_seconds := 600,
                  jwt_expire_refresh_token_seconds := 3600,
                  jwt_validation_leeway_seconds := 0,
                  jwt_enable_revoked_tokens := true },
      redis := { store := { globalBefore := none, userBefore := [],
                            revokedTokens := [] },
                 failing := true } }
    { payload := [("sub", JsonVal.str "u1"), ("jti", JsonVal.str "t1"),
                  ("iat", JsonVal.num 5), ("exp", JsonVal.num 10),
                  ("typ", JsonVal.num 0), ("roles", JsonVal.str "")],
      secret := "s" }
    { sub := "u1", jti := "t1", iat := 5, exp := 10, typ := 0, roles := "" }
    7 (by decide) (by decide) (by decide)

/-- C7: with revocation tracking enabled, presenting claims whose
token_type tag is not RefreshToken makes both logout and refresh fail
with `InvalidToken`, whatever the rest of the claims' content (refresh
rejects before even consulting the configuration). -/
theorem wrong_token_type_invalid (rc : RefreshClaims) (state : SharedState)
    (lookup : String → Except AuthError User) (time_now : Nat)
    (access_token_id refresh_token_id : String)
    (htyp : rc.typ ≠ 1)
    (hen : state.config.jwt_enable_revoked_tokens = true) :
    auth.logout rc state = .err .InvalidToken
    ∧ auth.refresh rc state lookup time_now access_token_id refresh_token_id
        = .err .InvalidToken := by
  have hv : auth.validate_token_type rc .RefreshToken = false := by
    simp [auth.validate_token_type, JwtTokenType.asU8, htyp]
  constructor
  · simp [auth.logout, hen, hv]
  · simp [auth.refresh, hv]

/-- C7 witness. -/
theorem wrong_token_type_invalid_witness :
    auth.logout
      { sub := "u1", jti := "r1", iat := 5, exp := 100, prf := "a1",
        pex := 50, typ := 0, roles := "" }
      { config := { jwt_secret := "s", jwt_expire_access_token_seconds := 600,
                    jwt_expire_refresh_token_seconds := 3600,
                    jwt_validation_leeway_seconds := 0,
                    jwt_enable_revoked_tokens := true },
        redis := { store := { globalBefore := none, userBefore := [],
                              revokedTokens := [] },
                   failing := false } }
      = .err .InvalidToken
    ∧ auth.refresh
        { sub := "u1", jti := "r1", iat := 5, exp := 100, prf := "a1",
          pex := 50, typ := 0, roles := "" }
        { config := { jwt_secret := "s", jwt_expire_access_token_seconds := 600,
                      jwt_expire_refresh_token_seconds := 3600,
                      jwt_validation_leeway_seconds := 0,
                      jwt_enable_revoked_tokens := true },
          redis := { store := { globalBefore := none, userBefore := [],
                                revokedTokens := [] },
                     failing := false } }
        (fun _ => .error .SQLxError) 6 "na1" "nr1"
        = .err .InvalidToken :=
  wrong_token_type_invalid
    { sub := "u1", jti := "r1", iat := 5, exp := 100, prf := "a1",
      pex := 50, typ := 0, roles := "" }
    { config := { jwt_secret := "s", jwt_expire_access_token_seconds := 600,
                  jwt_expire_refresh_token_seconds := 3600,
                  jwt_validation_leeway_seconds := 0,
                  jwt_enable_revoked_tokens := true },
      redis := { store := { globalBefore := none, userBefore := [],
                            revokedTokens := [] },
                 failing := false } }
    (fun _ => .error .SQLxError) 6 "na1" "nr1" (by decide) (by decide)

/-- C10: refresh on claims whose subject string is not a valid UUID
panics at the subject parse (`.parse().unwrap()`) instead of returning
an error, whenever control reaches the parse (the token-type check
passes and the revocation step, if enabled, succeeds). -/
theorem refresh_panics_on_non_uuid_subject (rc : RefreshClaims)
    (state : SharedState) (lookup : String → Except AuthError User)
    (time_now : Nat) (access_token_id refresh_token_id : String)
    (htyp : rc.typ = 1)
    (hfail : state.redis.failing = false)
    (hrev : token_service.is_revoked rc state.redis = .ok false)
    (hsub : parse_uuid rc.sub = none) :
    auth.refresh rc state lookup time_now access_token_id refresh_token_id
      = .panicked := by
  have hv : auth.validate_token_type rc .RefreshToken = true := by
    simp [auth.validate_token_type, JwtTokenType.asU8, htyp]
  by_cases hen : state.config.jwt_enable_revoked_tokens
  · simp [auth.refresh, hv, hen, auth.revoke_refresh_token, auth.validate_revoked,
          hrev, Outcome.mapErr, Outcome.bind,
          token_service.revoke_refresh_token, hfail, hsub]
  · simp [auth.refresh, hv, hen, Outcome.bind, hsub]

/-- C10 witness. -/
theorem refresh_panics_on_non_uuid_subject_witness :
    auth.refresh
      { sub := "not-a-uuid", jti := "r1", iat := 5, exp := 100, prf := "a1",
        pex := 50, typ := 1, roles := "" }
      { config := { jwt_secret := "s", jwt_expire_access_token_seconds := 600,
                    jwt_expire_refresh_token_seconds := 3600,
                    jwt_validation_leeway_seconds := 0,
                    jwt_enable_revoked_tokens := true },
        redis := { store := { globalBefore := none, userBefore := [],
                              revokedTokens := [] },
                   failing := false } }
      (fun _ => .error .SQLxError) 6 "na1" "nr1"
      = .panicked :=
  refresh_panics_on_non_uuid_subject
    { sub := "not-a-uuid", jti := "r1", iat := 5, exp := 100, prf := "a1",
      pex := 50, typ := 1, roles := "" }
    { config := { jwt_secret := "s", jwt_expire_access_token_seconds := 600,
                  jwt_expire_refresh_token_seconds := 3600,
                  jwt_validation_leeway_seconds := 0,
                  jwt_enable_revoked_tokens := true },
      redis := { store := { globalBefore := none, userBefore := [],
                            revokedTokens := [] },
                 failing := false } }
    (fun _ => .error .SQLxError) 6 "na1" "nr1" (by decide) (by decide) (by decide)
    (by decide)

/-- C4: after revoke_global writes cutoff T, the global check marks a
claims value revoked exactly when its `iat` is at most T — and whenever
`iat ≤ T`, the full is_revoked check reports revoked, whatever the other
store contents. -/
theorem revoke_global_cutoff (T : Nat) (state : SharedState)
    (claims : AccessClaims) (s2 : RedisStore)
    (hfail : state.redis.failing = false)
    (hrg : token_service.revoke_global T state = .ok s2) :
    token_service.is_global_revoked claims { store := s2, failing := false }
      = .ok (decide (claims.iat ≤ T))
    ∧ (claims.iat ≤ T →
      token_service.is_revoked claims { store := s2, failing := false } = .ok true) := by
  rw [token_service.revoke_global, if_neg (by rw [hfail]; exact Bool.false_ne_true)] at hrg
  injection hrg with hs2
  have hglobal : token_service.is_global_revoked claims
      { store := s2, failing := false } = .ok (decide (claims.iat ≤ T)) := by
    rw [← hs2]
    simp only [token_service.is_global_revoked, toNat?_repr, instCMAccessClaims,
      Bool.false_eq_true, if_false, ge_iff_le]
    by_cases hle : claims.iat ≤ T
    · simp [hle]
    · simp [hle]
  refine ⟨hglobal, fun hle => ?_⟩
  rw [token_service.is_revoked, hglobal]
  simp [hle, Outcome.bind]

/-- C4 witness. -/
theorem revoke_global_cutoff_witness :
    token_service.is_global_revoked (α := AccessClaims)
      { sub := "u1", jti := "t1", iat := 90, exp := 200, typ := 0, roles := "" }
      { store := { globalBefore := some "100", userBefore := [],
                   revokedTokens := [] },
        failing := false }
      = .ok true
    ∧ (90 ≤ 100 →
      token_service.is_revoked (α := AccessClaims)
        { sub := "u1", jti := "t1", iat := 90, exp := 200, typ := 0, roles := "" }
        { store := { globalBefore := some "100", userBefore := [],
                     revokedTokens := [] },
          failing := false }
        = .ok true) :=
  revoke_global_cutoff 100
    { config := { jwt_secret := "s", jwt_expire_access_token_seconds := 600,
                  jwt_expire_refresh_token_seconds := 3600,
                  jwt_validation_leeway_seconds := 0,
                  jwt_enable_revoked_tokens := true },
      redis := { store := { globalBefore := none, userBefore := [],
                            revokedTokens := [] },
                 failing := false } }
    { sub := "u1", jti := "t1", iat := 90, exp := 200, typ := 0, roles := "" }
    { globalBefore := some "100", userBefore := [], revokedTokens := [] }
    rfl (by decide)

/-- C5: after revoke_user_tokens writes cutoff T for user u, the
user-cutoff check marks revoked exactly the claims with subject u and
`iat ≤ T`; for claims with any other subject the user-cutoff check gives
the same answer as before the revocation. -/
theorem revoke_user_cutoff (T : Nat) (u : String) (state : SharedState)
    (claims : AccessClaims) (s2 : RedisStore)
    (hfail : state.redis.failing = false)
    (hru : token_service.revoke_user_tokens u T state = .ok s2) :
    (claims.sub = u →
      token_service.is_user_revoked claims { store := s2, failing := false }
        = .ok (decide (claims.iat ≤ T)))
    ∧ (claims.sub ≠ u →
      token_service.is_user_revoked claims { store := s2, failing := false }
        = token_service.is_user_revoked claims state.redis) := by
  rw [token_service.revoke_user_tokens,
    if_neg (by rw [hfail]; exact Bool.false_ne_true)] at hru
  injection hru with hs2
  constructor
  · intro hsub
    rw [← hs2]
    simp only [token_service.is_user_revoked, instCMAccessClaims,
      Bool.false_eq_true, if_false, hsub, Redis.hget_hset_self, toNat?_repr,
      ge_iff_le]
    by_cases hle : claims.iat ≤ T
    · simp [hle]
    · simp [hle]
  · intro hsub
    rw [← hs2]
    have hconn : state.redis = { store := state.redis.store, failing := false } := by
      cases hc : state.redis with
      | mk st fl =>
        rw [hc] at hfail
        simp at hfail
        rw [hfail]
    rw [hconn]
    simp only [token_service.is_user_revoked, instCMAccessClaims,
      Bool.false_eq_true, if_false, Redis.hget_hset_ne _ _ _ _ hsub]

/-- C5 witness. -/
theorem revoke_user_cutoff_witness :
    (("u1" : String) = "u1" →
      token_service.is_user_revoked (α := AccessClaims)
        { sub := "u1", jti := "t1", iat := 90, exp := 200, typ := 0, roles := "" }
        { store := { globalBefore := none, userBefore := [("u1", "100")],
                     revokedTokens := [] },
          failing := false }
        = .ok true)
    ∧ (("u1" : String) ≠ "u1" →
      token_service.is_user_revoked (α := AccessClaims)
        { sub := "u1", jti := "t1", iat := 90, exp := 200, typ := 0, roles := "" }
        { store := { globalBefore := none, userBefore := [("u1", "100")],
                     revokedTokens := [] },
          failing := false }
        = token_service.is_user_revoked (α := AccessClaims)
            { sub := "u1", jti := "t1", iat := 90, exp := 200, typ := 0, roles := "" }
            { store := { globalBefore := none, userBefore := [],
                         revokedTokens := [] },
              failing := false }) :=
  revoke_user_cutoff 100 "u1"
    { config := { jwt_secret := "s", jwt_expire_access_token_seconds := 600,
                  jwt_expire_refresh_token_seconds := 3600,
                  jwt_validation_leeway_seconds := 0,
                  jwt_enable_revoked_tokens := true },
      redis := { store := { globalBefore := none, userBefore := [],
                            revokedTokens := [] },
                 failing := false } }
    { sub := "u1", jti := "t1", iat := 90, exp := 200, typ := 0, roles := "" }
    { globalBefore := none, userBefore := [("u1", "100")], revokedTokens := [] }
    rfl rfl

theorem cleanupLoop_spec (timestamp_now : Nat) (t : List (String × String)) :
    ∀ (pre : Redis.Hash) (d : Nat),
    (∀ k ∈ t.map Prod.fst, k ∉ pre.map Prod.fst) →
    (t.map Prod.fst).Nodup →
    token_service.cleanupLoop timestamp_now t (pre ++ t) d =
      (pre ++ t.filter (fun p => !token_service.expiredEntry timestamp_now p),
       d + (t.filter (token_service.expiredEntry timestamp_now)).length) := by
  induction t with
  | nil =>
    intro pre d _ _
    simp [token_service.cleanupLoop]
  | cons p t2 ih =>
    intro pre d hdisj hnd
    obtain ⟨k, v⟩ := p
    simp only [List.map_cons, List.nodup_cons] at hnd
    have hkt2 : k ∉ t2.map Prod.fst := hnd.1
    have hkpre : k ∉ pre.map Prod.fst := by
      refine hdisj k ?_
      simp
    have hdisj2 : ∀ k2 ∈ t2.map Prod.fst, k2 ∉ pre.map Prod.fst := by
      intro k2 hk2
      refine hdisj k2 ?_
      simp [hk2]
    have hdisj3 : ∀ k2 ∈ t2.map Prod.fst, k2 ∉ (pre ++ [(k, v)]).map Prod.fst := by
      intro k2 hk2
      simp only [List.map_append, List.mem_append]
      push_neg
      refine ⟨hdisj2 k2 hk2, ?_⟩
      simp only [List.map_cons, List.map_nil, List.mem_singleton]
      intro he
      exact hkt2 (he ▸ hk2)
    have hmid : pre ++ (k, v) :: t2 = (pre ++ [(k, v)]) ++ t2 := by simp
    cases hv : v.toNat? with
    | some e =>
      by_cases hex : timestamp_now > e
      · have hexp : token_service.expiredEntry timestamp_now (k, v) = true := by
          simp [token_service.expiredEntry, hv, hex]
        have hdel : Redis.hdel (pre ++ (k, v) :: t2) k = pre ++ t2 := by
          rw [Redis.hdel_append]
          rw [Redis.hdel_not_mem pre k (Redis.hget_eq_none_of_not_mem_keys pre k hkpre)]
          show pre ++ (if k = k then Redis.hdel t2 k else (k, v) :: Redis.hdel t2 k) = pre ++ t2
          rw [if_pos rfl,
            Redis.hdel_not_mem t2 k (Redis.hget_eq_none_of_not_mem_keys t2 k hkt2)]
        simp only [token_service.cleanupLoop, hv]
        rw [if_pos hex, hdel, ih pre (d + 1) hdisj2 hnd.2]
        simp [hexp]
        omega
      · have hexp : token_service.expiredEntry timestamp_now (k, v) = false := by
          simp [token_service.expiredEntry, hv]
          omega
        simp only [token_service.cleanupLoop, hv]
        rw [if_neg hex, hmid, ih (pre ++ [(k, v)]) d hdisj3 hnd.2]
        simp [hexp]
    | none =>
      have hexp : token_service.expiredEntry timestamp_now (k, v) = false := by
        simp [token_service.expiredEntry, hv]
      simp only [token_service.cleanupLoop, hv]
      rw [hmid, ih (pre ++ [(k, v)]) d hdisj3 hnd.2]
      simp [hexp]

theorem cleanupLoop_no_expired (timestamp_now : Nat) (t : List (String × String)) :
    ∀ (h : Redis.Hash) (d : Nat),
    (∀ p ∈ t, token_service.expiredEntry timestamp_now p = false) →
    token_service.cleanupLoop timestamp_now t h d = (h, d) := by
  induction t with
  | nil => intro h d _; rfl
  | cons p t2 ih =>
    intro h d hall
    obtain ⟨k, v⟩ := p
    have hp := hall (k, v) (by simp)
    cases hv : v.toNat? with
    | some e =>
      have hex : ¬ timestamp_now > e := by
        simp [token_service.expiredEntry, hv] at hp
        omega
      simp only [token_service.cleanupLoop, hv]
      rw [if_neg hex]
      refine ih h d ?_
      intro p2 hp2
      exact hall p2 (by simp [hp2])
    | none =>
      simp only [token_service.cleanupLoop, hv]
      refine ih h d ?_
      intro p2 hp2
      exact hall p2 (by simp [hp2])

/-- The store with its revoked-tokens hash replaced; abbreviates the
record update in the cleanup statements. -/
def withRevoked (s : RedisStore) (h : Redis.Hash) : RedisStore :=
  { globalBefore := s.globalBefore, userBefore := s.userBefore, revokedTokens := h }

/-- C6: cleanup_expired deletes exactly the denylist entries whose
recorded expiry is strictly before the current time, leaves every other
entry unchanged (and the other store keys untouched), returns the exact
number deleted, and an immediately repeated call on the resulting store
deletes nothing and returns 0. -/
theorem cleanup_expired_exact (timestamp_now : Nat) (state : SharedState)
    (hfail : state.redis.failing = false)
    (hnodup : (state.redis.store.revokedTokens.map Prod.fst).Nodup) :
    token_service.cleanup_expired timestamp_now state =
      .ok ((state.redis.store.revokedTokens.filter
              (token_service.expiredEntry timestamp_now)).length,
        withRevoked state.redis.store
          (state.redis.store.revokedTokens.filter
            (fun p => !token_service.expiredEntry timestamp_now p)))
    ∧ token_service.cleanup_expired timestamp_now
        { config := state.config,
          redis := { store := withRevoked state.redis.store
                        (state.redis.store.revokedTokens.filter
                          (fun p => !token_service.expiredEntry timestamp_now p)),
                     failing := false } } =
      .ok (0, withRevoked state.redis.store
        (state.redis.store.revokedTokens.filter
          (fun p => !token_service.expiredEntry timestamp_now p))) := by
  have hdisj : ∀ k ∈ state.redis.store.revokedTokens.map Prod.fst,
      k ∉ (([] : Redis.Hash).map Prod.fst) := by
    simp
  have h1 := cleanupLoop_spec timestamp_now state.redis.store.revokedTokens [] 0
    hdisj hnodup
  simp only [List.nil_append, Nat.zero_add] at h1
  constructor
  · rw [token_service.cleanup_expired, if_neg (by rw [hfail]; exact Bool.false_ne_true)]
    show Outcome.ok
      ((token_service.cleanupLoop timestamp_now state.redis.store.revokedTokens
          state.redis.store.revokedTokens 0).2,
        withRevoked state.redis.store
          (token_service.cleanupLoop timestamp_now state.redis.store.revokedTokens
            state.redis.store.revokedTokens 0).1) = _
    rw [h1]
  · rw [token_service.cleanup_expired, if_neg (by simp)]
    have hall : ∀ p ∈ state.redis.store.revokedTokens.filter
        (fun p => !token_service.expiredEntry timestamp_now p),
        token_service.expiredEntry timestamp_now p = false := by
      intro p hp
      have hmem := List.of_mem_filter hp
      simpa using hmem
    have h2 := cleanupLoop_no_expired timestamp_now
      (state.redis.store.revokedTokens.filter
        (fun p => !token_service.expiredEntry timestamp_now p))
      (state.redis.store.revokedTokens.filter
        (fun p => !token_service.expiredEntry timestamp_now p)) 0 hall
    show Outcome.ok
      ((token_service.cleanupLoop timestamp_now
          (state.redis.store.revokedTokens.filter
            (fun p => !token_service.expiredEntry timestamp_now p))
          (state.redis.store.revokedTokens.filter
            (fun p => !token_service.expiredEntry timestamp_now p)) 0).2,
        withRevoked
          (withRevoked state.redis.store
            (state.redis.store.revokedTokens.filter
              (fun p => !token_service.expiredEntry timestamp_now p)))
          (token_service.cleanupLoop timestamp_now
            (state.redis.store.revokedTokens.filter
              (fun p => !token_service.expiredEntry timestamp_now p))
            (state.redis.store.revokedTokens.filter
              (fun p => !token_service.expiredEntry timestamp_now p)) 0).1) = _
    rw [h2]
    simp [withRevoked]

/-- C6 witness. -/
theorem cleanup_expired_exact_witness :
    token_service.cleanup_expired 100
      { config := { jwt_secret := "s", jwt_expire_access_token_seconds := 600,
                    jwt_expire_refresh_token_seconds := 3600,
                    jwt_validation_leeway_seconds := 0,
                    jwt_enable_revoked_tokens := true },
        redis := { store := { globalBefore := none, userBefore := [],
                              revokedTokens := [("a", "50"), ("b", "150"), ("c", "99")] },
                   failing := false } } =
      .ok (([("a", "50"), ("b", "150"), ("c", "99")].filter
              (token_service.expiredEntry 100)).length,
        withRevoked
          { globalBefore := none, userBefore := [],
            revokedTokens := [("a", "50"), ("b", "150"), ("c", "99")] }
          ([("a", "50"), ("b", "150"), ("c", "99")].filter
            (fun p => !token_service.expiredEntry 100 p)))
    ∧ token_service.cleanup_expired 100
        { config := { jwt_secret := "s", jwt_expire_access_token_seconds := 600,
                      jwt_expire_refresh_token_seconds := 3600,
                      jwt_validation_leeway_seconds := 0,
                      jwt_enable_revoked_tokens := true },
          redis := { store := withRevoked
                        { globalBefore := none, userBefore := [],
                          revokedTokens := [("a", "50"), ("b", "150"), ("c", "99")] }
                        ([("a", "50"), ("b", "150"), ("c", "99")].filter
                          (fun p => !token_service.expiredEntry 100 p)),
                     failing := false } } =
      .ok (0, withRevoked
        { globalBefore := none, userBefore := [],
          revokedTokens := [("a", "50"), ("b", "150"), ("c", "99")] }
        ([("a", "50"), ("b", "150"), ("c", "99")].filter
          (fun p => !token_service.expiredEntry 100 p))) :=
  cleanup_expired_exact 100
    { config := { jwt_secret := "s", jwt_expire_access_token_seconds := 600,
                  jwt_expire_refresh_token_seconds := 3600,
                  jwt_validation_leeway_seconds := 0,
                  jwt_enable_revoked_tokens := true },
      redis := { store := { globalBefore := none, userBefore := [],
                            revokedTokens := [("a", "50"), ("b", "150"), ("c", "99")] },
                 failing := false } }
    rfl (by decide)

/-- C9: a refresh token's wire form also deserialises as AccessClaims
(the refresh fields are a superset and unknown fields are ignored), and
the request extractor for AccessClaims performs no token-type check, so
a valid unexpired refresh token presented as a bearer token is admitted
(even with revocation checking enabled) where an access token is
expected. -/
theorem refresh_token_admitted_as_access (rc : RefreshClaims)
    (state : SharedState) (timestamp_now : Nat)
    (hexp : timestamp_now ≤ rc.exp + state.config.jwt_validation_leeway_seconds.toNat)
    (hen : state.config.jwt_enable_revoked_tokens = true)
    (hrev : token_service.is_revoked rc.asAccess state.redis = .ok false) :
    AccessClaims.fromJson rc.toJson = some rc.asAccess
    ∧ decode_token_from_request_part AccessClaims.fromJson
        (.bearer { payload := rc.toJson, secret := state.config.jwt_secret })
        state timestamp_now = .ok rc.asAccess := by
  have hjson : AccessClaims.fromJson rc.toJson = some rc.asAccess := rfl
  have hlook : lookupNum rc.toJson "exp" = some rc.exp := rfl
  refine ⟨hjson, ?_⟩
  have hdec : decode_token AccessClaims.fromJson
      { payload := rc.toJson, secret := state.config.jwt_secret }
      state.config timestamp_now = .ok rc.asAccess := by
    simp only [decode_token, hlook, hjson, ne_eq, not_true_eq_false, if_false,
      reduceCtorEq, ite_false]
    rw [if_neg (by omega)]
  simp only [decode_token_from_request_part, hdec, Outcome.bind, hen,
    auth.validate_revoked, hrev, Outcome.mapErr, if_true]
  simp

/-- C9 witness. -/
theorem refresh_token_admitted_as_access_witness :
    AccessClaims.fromJson
      (RefreshClaims.toJson
        { sub := "u1", jti := "r1", iat := 5, exp := 100, prf := "a1",
          pex := 50, typ := 1, roles := "" })
      = some { sub := "u1", jti := "r1", iat := 5, exp := 100, typ := 1, roles := "" }
    ∧ decode_token_from_request_part AccessClaims.fromJson
        (.bearer { payload := RefreshClaims.toJson
                     { sub := "u1", jti := "r1", iat := 5, exp := 100, prf := "a1",
                       pex := 50, typ := 1, roles := "" },
                   secret := "s" })
        { config := { jwt_secret := "s", jwt_expire_access_token_seconds := 600,
                      jwt_expire_refresh_token_seconds := 3600,
                      jwt_validation_leeway_seconds := 0,
                      jwt_enable_revoked_tokens := true },
          redis := { store := { globalBefore := none, userBefore := [],
                                revokedTokens := [] },
                     failing := false } }
        50
      = .ok { sub := "u1", jti := "r1", iat := 5, exp := 100, typ := 1, roles := "" } :=
  refresh_token_admitted_as_access
    { sub := "u1", jti := "r1", iat := 5, exp := 100, prf := "a1",
      pex := 50, typ := 1, roles := "" }
    { config := { jwt_secret := "s", jwt_expire_access_token_seconds := 600,
                  jwt_expire_refresh_token_seconds := 3600,
                  jwt_validation_leeway_seconds := 0,
                  jwt_enable_revoked_tokens := true },
      redis := { store := { globalBefore := none, userBefore := [],
                            revokedTokens := [] },
                 failing := false } }
    50 (by decide) (by decide) (by decide)

theorem is_revoked_ok_false_parts {α : Type} [ClaimsMethods α] (claims : α)
    (conn : RedisConn)
    (h : token_service.is_revoked claims conn = .ok false) :
    token_service.is_global_revoked claims conn = .ok false
    ∧ token_service.is_user_revoked claims conn = .ok false
    ∧ token_service.is_token_revoked claims conn = .ok false := by
  rw [token_service.is_revoked] at h
  cases hg : token_service.is_global_revoked claims conn with
  | err e => rw [hg] at h; simp [Outcome.bind] at h
  | panicked => rw [hg] at h; simp [Outcome.bind] at h
  | ok b =>
    rw [hg] at h
    cases b with
    | true => simp [Outcome.bind] at h
    | false =>
      simp only [Outcome.bind, if_false, Bool.false_eq_true] at h
      cases hu : token_service.is_user_revoked claims conn with
      | err e => rw [hu] at h; simp [Outcome.bind] at h
      | panicked => rw [hu] at h; simp [Outcome.bind] at h
      | ok b2 =>
        rw [hu] at h
        cases b2 with
        | true => simp [Outcome.bind] at h
        | false =>
          simp only [Outcome.bind, if_false, Bool.false_eq_true] at h
          cases ht : token_service.is_token_revoked claims conn with
          | err e => rw [ht] at h; simp [Outcome.bind] at h
          | panicked => rw [ht] at h; simp [Outcome.bind] at h
          | ok b3 =>
            rw [ht] at h
            cases b3 with
            | true => simp [Outcome.bind] at h
            | false => exact ⟨rfl, rfl, rfl⟩

/-- C1 counterexample: a concrete refresh token, first logout succeeds;
a second logout with the same claims on the resulting store fails with
`WrongCredentials` — logout is not idempotent. -/
theorem logout_idempotence_counterexample :
    auth.logout
      { sub := "u1", jti := "r1", iat := 5, exp := 100, prf := "a1",
        pex := 50, typ := 1, roles := "" }
      { config := { jwt_secret := "s", jwt_expire_access_token_seconds := 600,
                    jwt_expire_refresh_token_seconds := 3600,
                    jwt_validation_leeway_seconds := 0,
                    jwt_enable_revoked_tokens := true },
        redis := { store := { globalBefore := none, userBefore := [],
                              revokedTokens := [] },
                   failing := false } }
      = .ok { globalBefore := none, userBefore := [],
              revokedTokens := [("r1", "100"), ("a1", "100")] }
    ∧ auth.logout
        { sub := "u1", jti := "r1", iat := 5, exp := 100, prf := "a1",
          pex := 50, typ := 1, roles := "" }
        { config := { jwt_secret := "s", jwt_expire_access_token_seconds := 600,
                      jwt_expire_refresh_token_seconds := 3600,
                      jwt_validation_leeway_seconds := 0,
                      jwt_enable_revoked_tokens := true },
          redis := { store := { globalBefore := none, userBefore := [],
                                revokedTokens := [("r1", "100"), ("a1", "100")] },
                     failing := false } }
      = .err .WrongCredentials := by
  decide

/-- C1 (amended): a second logout with the same refresh claims, on the
store left by a successful first logout, does not succeed idempotently:
it is rejected with `WrongCredentials` (the revocation-status check in
revoke_refresh_token treats an already-revoked token as wrong
credentials). -/
theorem logout_second_call_rejected (rc : RefreshClaims) (state : SharedState)
    (s2 : RedisStore)
    (hfail : state.redis.failing = false)
    (h1 : auth.logout rc state = .ok s2) :
    auth.logout rc
      { config := state.config, redis := { store := s2, failing := false } }
      = .err .WrongCredentials := by
  by_cases hen : state.config.jwt_enable_revoked_tokens
  case neg =>
    rw [auth.logout, if_pos (by simp [hen])] at h1
    simp at h1
  by_cases htyp : auth.validate_token_type rc .RefreshToken
  case neg =>
    rw [auth.logout, if_neg (by simp [hen]), if_pos (by simp [htyp])] at h1
    simp at h1
  rw [auth.logout, if_neg (by simp [hen]), if_neg (by simp [htyp]),
    auth.revoke_refresh_token, auth.validate_revoked] at h1
  cases hrev : token_service.is_revoked rc state.redis with
  | err e => rw [hrev] at h1; simp [Outcome.mapErr, Outcome.bind] at h1
  | panicked => rw [hrev] at h1; simp [Outcome.mapErr, Outcome.bind] at h1
  | ok b =>
    rw [hrev] at h1
    cases b with
    | true => simp [Outcome.mapErr, Outcome.bind] at h1
    | false =>
      simp only [Outcome.mapErr, Outcome.bind, if_false, Bool.false_eq_true] at h1
      rw [token_service.revoke_refresh_token,
        if_neg (by rw [hfail]; exact Bool.false_ne_true)] at h1
      simp only [Outcome.mapErr] at h1
      injection h1 with hs2
      obtain ⟨hg, hu, ht⟩ := is_revoked_ok_false_parts rc state.redis hrev
      have hconn : state.redis = { store := state.redis.store, failing := false } := by
        cases hc : state.redis with
        | mk st fl =>
          rw [hc] at hfail
          simp at hfail
          rw [hfail]
      rw [hconn] at hg hu
      have hg2 : token_service.is_global_revoked rc
          { store := s2, failing := false } = .ok false := by
        rw [← hs2]
        exact hg
      have hu2 : token_service.is_user_revoked rc
          { store := s2, failing := false } = .ok false := by
        rw [← hs2]
        exact hu
      have ht2 : token_service.is_token_revoked rc
          { store := s2, failing := false } = .ok true := by
        rw [← hs2]
        show Outcome.ok (Redis.hexists
          (Redis.hset
            (Redis.hset state.redis.store.revokedTokens rc.jti (Nat.repr rc.exp))
            rc.prf (Nat.repr rc.exp)) rc.jti) = .ok true
        by_cases hpj : rc.prf = rc.jti
        · rw [Redis.hexists, hpj, Redis.hget_hset_self]
          rfl
        · rw [Redis.hexists, Redis.hget_hset_ne _ _ _ _ (Ne.symm hpj),
            Redis.hget_hset_self]
          rfl
      have hrevoked2 : token_service.is_revoked rc
          { store := s2, failing := false } = .ok true := by
        rw [token_service.is_revoked, hg2]
        simp [Outcome.bind, hu2, ht2]
      rw [auth.logout, if_neg (by simp [hen]), if_neg (by simp [htyp]),
        auth.revoke_refresh_token, auth.validate_revoked]
      simp [hrevoked2, Outcome.mapErr, Outcome.bind]

/-- C1 witness. -/
theorem logout_second_call_rejected_witness :
    auth.logout
      { sub := "u1", jti := "r1", iat := 5, exp := 100, prf := "a1",
        pex := 50, typ := 1, roles := "" }
      { config := { jwt_secret := "s", jwt_expire_access_token_seconds := 600,
                    jwt_expire_refresh_token_seconds := 3600,
                    jwt_validation_leeway_seconds := 0,
                    jwt_enable_revoked_tokens := true },
        redis := { store := { globalBefore := none, userBefore := [],
                              revokedTokens := [("r1", "100"), ("a1", "100")] },
                   failing := false } }
      = .err .WrongCredentials :=
  logout_second_call_rejected
    { sub := "u1", jti := "r1", iat := 5, exp := 100, prf := "a1",
      pex := 50, typ := 1, roles := "" }
    { config := { jwt_secret := "s", jwt_expire_access_token_seconds := 600,
                  jwt_expire_refresh_token_seconds := 3600,
                  jwt_validation_leeway_seconds := 0,
                  jwt_enable_revoked_tokens := true },
      redis := { store := { globalBefore := none, userBefore := [],
                            revokedTokens := [] },
                 failing := false } }
    { globalBefore := none, userBefore := [],
      revokedTokens := [("r1", "100"), ("a1", "100")] }
    rfl (by decide)
